import Mathlib

/-!
Verification of the core routing engine of the `routing-engine-osmnx`
repository against its natural-language specification.

The development is a shallow embedding of the Python sources:

* `app/models/routing.py`   — data model (Coordinate, RouteRequest, RouteStep,
  RouteGeometry, RouteSummary, RouteResponse);
* `app/services/graph_manager.py` — `GraphManager` (graph cache, bounding box,
  nearest node search, weight normalisation, haversine distance, radius policy);
* `app/services/routing_service.py` — `RoutingService.compute_route` and its
  helpers.

Modelling conventions:

* Python floats are modelled as exact rationals (`ℚ`) in the executable graph
  and routing world; the transcendental haversine distance and the radius
  policy built on it are modelled over the reals (`ℝ`).
* Python exceptions that a function may raise are modelled with `Except`:
  an uncaught exception propagating out of `compute_route` is an
  `Except.error` value, and a normal return is `Except.ok`.
* `networkx` dictionaries preserve insertion order, so node and edge sets are
  modelled as association lists in insertion order; multigraph parallel edges
  between the same ordered node pair are the sublist of edges for that pair,
  the "first key" being the first inserted one.
* `nx.shortest_path(G, source, target, weight="weight")` is a call into the
  networkx library (not part of this repository).  It is modelled by
  `nxShortestPath` below with networkx's documented contract for weighted
  multigraphs: `NodeNotFound` when source or target is absent, the one-node
  path `[source]` when `source == target`, Dijkstra search where the cost
  between two nodes is the minimum over parallel edges of the edge's
  `weight` attribute with missing attributes defaulting to `1`, and
  `NetworkXNoPath` when the target is unreachable.
-/

/-- Node identifiers (OSM node ids are integers; the dummy graph uses 1, 2, 3). -/
abbrev NodeId := Nat

/-- `app/models/routing.py::Coordinate` — latitude/longitude pair.  Python
floats are exact rationals. -/
structure Coordinate where
  lat : ℚ
  lon : ℚ
deriving DecidableEq

/-- `app/models/routing.py::RouteRequest` (the `departure_time` field exists
in the source but is never read by the engine). -/
structure RouteRequest where
  origin : Coordinate
  destination : Coordinate
  departure_time : Option String := Option.none
deriving DecidableEq

/-- `app/models/routing.py::RouteStep`. -/
structure RouteStep where
  from_node : NodeId
  to_node : NodeId
  distance_m : ℚ
  duration_s : ℚ
deriving DecidableEq

/-- `app/models/routing.py::RouteGeometry` — GeoJSON-like LineString whose
coordinate entries are `[lat, lon]` pairs.  Entries come from `dict.get`
calls that can yield `None`, hence the `Option`s. -/
structure RouteGeometry where
  type : String
  coordinates : List (Option ℚ × Option ℚ)
deriving DecidableEq

/-- `app/models/routing.py::RouteSummary` — flattened summary whose
`geometry` is the plain coordinate list. -/
structure RouteSummary where
  distance_m : ℚ
  duration_s : ℚ
  geometry : List (Option ℚ × Option ℚ)
deriving DecidableEq

/-- The one warning `compute_route` can emit (the formatted message string
"Route distance … exceeds 2×max graph radius …" is abstracted to a tag). -/
inductive Warning where
  | routeExceedsTwiceMaxRadius
deriving DecidableEq

/-- `app/models/routing.py::RouteResponse`. -/
structure RouteResponse where
  distance_m : ℚ
  duration_s : ℚ
  geometry : RouteGeometry
  summary : RouteSummary
  steps : List RouteStep
  warnings : List Warning
deriving DecidableEq

/-- Node attribute dictionary: `x` (longitude) and `y` (latitude) may be
absent (`data.get("x")` returning `None`). -/
structure NodeData where
  x : Option ℚ
  y : Option ℚ
deriving DecidableEq

/-- The raw `length` attribute of an edge, as `_ensure_numeric_weights`
distinguishes its cases: absent (`None`), a number, a string parsing to a
number, a string that fails `float(...)`, or a value of some other type on
which `float(...)` raises `TypeError`. -/
inductive RawAttr where
  | missing
  | num (q : ℚ)
  | strNum (q : ℚ)
  | strBad
  | other
deriving DecidableEq

/-- Edge attribute dictionary: the raw `length`, the numeric `weight` set by
graph construction or weight normalisation (absent when normalisation was
impossible), and the optional shapely geometry as a list of `(x, y)` =
`(lon, lat)` points. -/
structure EdgeData where
  rawLength : RawAttr
  weight : Option ℚ
  geometry : Option (List (ℚ × ℚ))
deriving DecidableEq

/-- An `nx.MultiDiGraph`: nodes and directed edges in insertion order.
Parallel edges between the same ordered pair are permitted; their relative
order models the multigraph key order. -/
structure Graph where
  nodes : List (NodeId × NodeData)
  edges : List (NodeId × NodeId × EdgeData)
deriving DecidableEq

/-- Bounding box of the cached graph, `(north, south, east, west)` as in
`GraphManager.bbox`. -/
structure BBox where
  north : ℚ
  south : ℚ
  east : ℚ
  west : ℚ
deriving DecidableEq

/-- The mutable state of a `GraphManager`: the cached graph and its bounding
box, both `None` until the first build. -/
structure GMState where
  graph : Option Graph
  bbox : Option BBox
deriving DecidableEq

/-- Errors of the routing pipeline, one per uncaught Python exception:
`RuntimeError("Graph not initialised...")`, `RuntimeError("No suitable node
found...")`, `networkx.NetworkXNoPath`, `networkx.NodeNotFound`. -/
inductive RouteErr where
  | graphNotInitialised
  | noSuitableNode
  | noPathFound
  | unknownNode
deriving DecidableEq

/-- Errors raised by the networkx shortest-path call. -/
inductive PathErr where
  | nodeNotFound
  | noPath
deriving DecidableEq

/-- First value bound to a key in an association list (Python dict lookup;
dicts preserve insertion order and hold each key once). -/
def assocFind {α : Type} (n : NodeId) : List (NodeId × α) → Option α
  | [] => Option.none
  | (k, v) :: rest => if k = n then some v else assocFind n rest

/-- Dict update: overwrite in place if the key is present (keeping its
position, as Python dicts do), else append. -/
def assocSet {α : Type} (n : NodeId) (v : α) : List (NodeId × α) → List (NodeId × α)
  | [] => [(n, v)]
  | (k, w) :: rest => if k = n then (n, v) :: rest else (k, w) :: assocSet n v rest

/-- `G.nodes[n]` attribute dictionary.  (In Python an absent id raises
`KeyError`; all call sites below look up ids produced by the nearest-node
search or the path search, which only yield existing nodes, so the default
empty record is never observed.) -/
def nodesGet (G : Graph) (n : NodeId) : NodeData :=
  (assocFind n G.nodes).getD ⟨Option.none, Option.none⟩

/-- `n in G` — node membership. -/
def nodeMem (G : Graph) (n : NodeId) : Bool :=
  G.nodes.any (fun p => p.1 = n)

/-- `G.get_edge_data(u, v)` — the attribute dictionaries of all parallel
edges from `u` to `v`, in key (= insertion) order. -/
def edgeDataList (G : Graph) (u v : NodeId) : List EdgeData :=
  G.edges.filterMap (fun e => if e.1 = u ∧ e.2.1 = v then some e.2.2 else Option.none)

/-- The attribute dictionary of the first key of `G.get_edge_data(u, v)`
(`next(iter(edge_dict))`), or `none` when there is no such edge. -/
def firstEdgeData (G : Graph) (u v : NodeId) : Option EdgeData :=
  (edgeDataList G u v).head?

/-- networkx multigraph weight function for `weight="weight"`: the minimum
over parallel edges of `attr.get("weight", 1)`; `none` when no edge exists. -/
def edgeCost (G : Graph) (u v : NodeId) : Option ℚ :=
  match edgeDataList G u v with
  | [] => Option.none
  | d :: rest => some (rest.foldl (fun m e => min m (e.weight.getD 1)) (d.weight.getD 1))

/-- Keep the first occurrence of each element (Python dict key order for the
successor dictionary `G_succ[v]`). -/
def dedupKeepFirst (l : List NodeId) : List NodeId :=
  l.foldl (fun acc x => if x ∈ acc then acc else acc ++ [x]) []

/-- `G_succ[v]` — the successors of `v` in first-edge-insertion order. -/
def succsOf (G : Graph) (v : NodeId) : List NodeId :=
  dedupKeepFirst (G.edges.filterMap (fun e => if e.1 = v then some e.2.1 else Option.none))

/-- Priority-queue entries `(dist, counter, node)`; the heap pops the least
entry in lexicographic order (counters are unique, so the node id is never
compared). -/
def popMin : List (ℚ × Nat × NodeId) → Option ((ℚ × Nat × NodeId) × List (ℚ × Nat × NodeId))
  | [] => Option.none
  | e :: rest =>
    match popMin rest with
    | Option.none => some (e, [])
    | some (m, rem) =>
      if e.1 < m.1 ∨ (e.1 = m.1 ∧ e.2.1 ≤ m.2.1) then some (e, rest) else some (m, e :: rem)

/-- The non-settled part of Dijkstra's state: tentative distances (`seen`),
discovered paths, the fringe heap and the push counter. -/
structure DStep where
  seen : List (NodeId × ℚ)
  paths : List (NodeId × List NodeId)
  fringe : List (ℚ × Nat × NodeId)
  counter : Nat

/-- Relaxation of the edge(s) from the just-settled node `v` (at distance
`d`) towards successor `u`: skip settled nodes, otherwise push when the new
tentative distance improves on `seen`. -/
def relaxEdge (G : Graph) (dist : List (NodeId × ℚ)) (v : NodeId) (d : ℚ)
    (st : DStep) (u : NodeId) : DStep :=
  match edgeCost G v u with
  | Option.none => st
  | some c =>
    let vu := d + c
    match assocFind u dist with
    | some _ => st
    | Option.none =>
      let push : DStep :=
        { seen := assocSet u vu st.seen
          paths := assocSet u ((assocFind v st.paths).getD [] ++ [u]) st.paths
          fringe := st.fringe ++ [(vu, st.counter, u)]
          counter := st.counter + 1 }
      match assocFind u st.seen with
      | some su => if vu < su then push else st
      | Option.none => push

/-- Dijkstra main loop.  `fuel` only bounds the recursion: every iteration
consumes one fringe entry and at most `1 + |edges|` entries are ever pushed
(one initial push plus at most one per relaxed edge), so any
`fuel ≥ |nodes| + |edges| + 2` is never exhausted and the zero-fuel branch
returns the same value the empty-fringe exit would. -/
def dijkstraLoop (G : Graph) (target : NodeId) :
    Nat → List (NodeId × ℚ) → DStep → Except PathErr (List NodeId)
  | 0, _, st =>
    (match assocFind target st.paths with
     | some p => Except.ok p
     | Option.none => Except.error PathErr.noPath)
  | Nat.succ fuel, dist, st =>
    match popMin st.fringe with
    | Option.none =>
      (match assocFind target st.paths with
       | some p => Except.ok p
       | Option.none => Except.error PathErr.noPath)
    | some ((d, _, v), rest) =>
      if (assocFind v dist).isSome then
        dijkstraLoop G target fuel dist { st with fringe := rest }
      else
        let dist' := assocSet v d dist
        if v = target then
          (match assocFind v st.paths with
           | some p => Except.ok p
           | Option.none => Except.error PathErr.noPath)
        else
          dijkstraLoop G target fuel dist'
            ((succsOf G v).foldl (relaxEdge G dist' v d) { st with fringe := rest })

/-- Model of `nx.shortest_path(G, source, target, weight="weight")` for a
`MultiDiGraph` (see the header comment): node-existence check, the
degenerate `source == target` case, then Dijkstra with the multigraph
weight function `min(attr.get("weight", 1) for attr in parallel-edges)`. -/
def nxShortestPath (G : Graph) (source target : NodeId) : Except PathErr (List NodeId) :=
  if nodeMem G source && nodeMem G target then
    if source = target then Except.ok [source]
    else
      dijkstraLoop G target (G.nodes.length + G.edges.length + 2) []
        { seen := [(source, 0)]
          paths := [(source, [source])]
          fringe := [(0, 0, source)]
          counter := 1 }
  else Except.error PathErr.nodeNotFound

/-- `GraphManager.MAX_GRAPH_RADIUS_M` (15 km). -/
def MAX_GRAPH_RADIUS_M : ℚ := 15000

/-- `RoutingService.DEFAULT_SPEED_KMH` (40 km/h). -/
def DEFAULT_SPEED_KMH : ℚ := 40

/-- One point of `GraphManager._bbox_contains_points`:
`south <= c.lat <= north and west <= c.lon <= east`. -/
def bbox_contains_point (b : BBox) (c : Coordinate) : Bool :=
  decide (b.south ≤ c.lat) && decide (c.lat ≤ b.north) &&
    decide (b.west ≤ c.lon) && decide (c.lon ≤ b.east)

/-- `GraphManager._bbox_contains_points` — `False` when no bbox is cached,
else both points must lie inside. -/
def bbox_contains_points (s : GMState) (origin destination : Coordinate) : Bool :=
  match s.bbox with
  | Option.none => false
  | some b => bbox_contains_point b origin && bbox_contains_point b destination

/-- `GraphManager.ensure_graph_for_points`.  The graph build
(`_build_graph_for_points`) is the test-mode dummy build or an osmnx
download depending on the environment; it is passed in as `build`. -/
def ensure_graph_for_points (build : GMState → Coordinate → Coordinate → GMState)
    (s : GMState) (origin destination : Coordinate) : GMState :=
  if s.graph.isNone || !(bbox_contains_points s origin destination) then
    build s origin destination
  else s

/-- The scan of `GraphManager.find_nearest_node` in its test branch: walk
the nodes in order, skip nodes without both coordinates, keep the first node
of strictly smallest squared degree-space distance. -/
def findNearestLoop (c : Coordinate) :
    List (NodeId × NodeData) → Option (NodeId × ℚ) → Option NodeId
  | [], acc => acc.map (·.1)
  | (nid, nd) :: rest, acc =>
    match nd.x, nd.y with
    | some x, some y =>
      let d2 := (x - c.lon) * (x - c.lon) + (y - c.lat) * (y - c.lat)
      (match acc with
       | Option.none => findNearestLoop c rest (some (nid, d2))
       | some (bn, bd) =>
         if d2 < bd then findNearestLoop c rest (some (nid, d2))
         else findNearestLoop c rest (some (bn, bd)))
    | _, _ => findNearestLoop c rest acc

/-- `GraphManager.find_nearest_node` on an existing graph (its test branch;
the non-test branch delegates to `osmnx.distance.nearest_nodes`, an external
collaborator).  `RuntimeError("No suitable node found...")` when every node
lacks coordinates. -/
def find_nearest_node (G : Graph) (c : Coordinate) : Except RouteErr NodeId :=
  match findNearestLoop c G.nodes Option.none with
  | some n => Except.ok n
  | Option.none => Except.error RouteErr.noSuitableNode

/-- The coordinates (lat_u, lon_u, lat_v, lon_v) of both endpoints of an
edge, when all four are present (`None in (lat_u, lon_u, lat_v, lon_v)`
check of `_ensure_numeric_weights`). -/
def edgeEndpointCoords (nds : List (NodeId × NodeData)) (u v : NodeId) :
    Option (ℚ × ℚ × ℚ × ℚ) :=
  let ndu := (assocFind u nds).getD ⟨Option.none, Option.none⟩
  let ndv := (assocFind v nds).getD ⟨Option.none, Option.none⟩
  match ndu.y, ndu.x, ndv.y, ndv.x with
  | some latu, some lonu, some latv, some lonv => some (latu, lonu, latv, lonv)
  | _, _, _, _ => Option.none

/-- The per-edge body of `GraphManager._ensure_numeric_weights`: parse the
`length` attribute (strings through `float(...)`), fall back to the
great-circle distance of the endpoints when the length is `None` or an
unparseable string, and leave the edge untouched (`continue`) when neither
is possible.  `fb` is the great-circle fallback (the source calls
`self._haversine_distance_m`, kept as a parameter because the executable
graph world is rational-valued); it receives `(lat_u, lon_u, lat_v, lon_v)`. -/
def ensure_edge_weight (fb : ℚ → ℚ → ℚ → ℚ → ℚ) (nds : List (NodeId × NodeData))
    (u v : NodeId) (e : EdgeData) : EdgeData :=
  match e.rawLength with
  | RawAttr.other => e
  | RawAttr.num q => { e with weight := some q }
  | RawAttr.strNum q => { e with weight := some q }
  | RawAttr.missing =>
    (match edgeEndpointCoords nds u v with
     | some (latu, lonu, latv, lonv) => { e with weight := some (fb latu lonu latv lonv) }
     | Option.none => e)
  | RawAttr.strBad =>
    (match edgeEndpointCoords nds u v with
     | some (latu, lonu, latv, lonv) => { e with weight := some (fb latu lonu latv lonv) }
     | Option.none => e)

/-- `GraphManager._ensure_numeric_weights` — normalise every edge. -/
def ensure_numeric_weights (fb : ℚ → ℚ → ℚ → ℚ → ℚ) (G : Graph) : Graph :=
  { G with edges := G.edges.map (fun e => (e.1, e.2.1, ensure_edge_weight fb G.nodes e.1 e.2.1 e.2.2)) }

/-- `GraphManager._build_dummy_graph_for_tests` — the fixed three-node graph
near Milan; `add_edge(u, v, length=length_m, weight=float(length_m))`. -/
def build_dummy_graph_for_tests : Graph :=
  { nodes :=
      [ (1, ⟨some (9.19 : ℚ), some (45.4642 : ℚ)⟩)
      , (2, ⟨some (9.22 : ℚ), some (45.4720 : ℚ)⟩)
      , (3, ⟨some (9.25 : ℚ), some (45.4800 : ℚ)⟩) ]
    edges :=
      [ (1, 2, ⟨RawAttr.num 1000, some 1000, Option.none⟩)
      , (2, 3, ⟨RawAttr.num 1500, some 1500, Option.none⟩)
      , (1, 3, ⟨RawAttr.num 2600, some 2600, Option.none⟩) ] }

/-- The `GMState` after the pytest branch of `_build_graph_for_points`:
dummy graph plus the all-covering bbox `(90, -90, 180, -180)`. -/
def dummyState : GMState :=
  { graph := some build_dummy_graph_for_tests
    bbox := some ⟨90, -90, 180, -180⟩ }

/-- The pytest branch of `GraphManager._build_graph_for_points` as a build
function: ignore the points, install the dummy graph and its bbox. -/
def dummyBuild : GMState → Coordinate → Coordinate → GMState :=
  fun _ _ _ => dummyState

/-- `RoutingService._compute_duration_from_distance`. -/
def compute_duration_from_distance (distance_m : ℚ) : ℚ :=
  if distance_m ≤ 0 then 0
  else
    let speed_mps := DEFAULT_SPEED_KMH * 1000 / 3600
    if speed_mps ≤ 0 then 0 else distance_m / speed_mps

/-- The loop of `RoutingService._build_coordinates_from_path` over
consecutive path pairs; the flag says whether the current pair is the first
segment (`i == 0`). -/
def buildCoordsLoop (G : Graph) : Bool → List NodeId → List (Option ℚ × Option ℚ)
  | _, [] => []
  | _, [_] => []
  | isFirst, u :: v :: rest =>
    (match (firstEdgeData G u v).bind (·.geometry) with
     | some pts =>
       ((if isFirst then pts else pts.drop 1).map (fun p => (some p.2, some p.1)))
     | Option.none =>
       let nu := nodesGet G u
       let nv := nodesGet G v
       (if isFirst then [(nu.y, nu.x)] else []) ++ [(nv.y, nv.x)]) ++
    buildCoordsLoop G false (v :: rest)

/-- `RoutingService._build_coordinates_from_path`. -/
def build_coordinates_from_path (G : Graph) (path : List NodeId) :
    List (Option ℚ × Option ℚ) :=
  match path with
  | [] => []
  | [n] =>
    let nd := nodesGet G n
    [(nd.y, nd.x)]
  | p => buildCoordsLoop G true p

/-- `RoutingService._build_steps_from_path` — one step per traversed edge
whose first-key `weight` is numeric; edges without a numeric weight (or
without an edge dictionary) are skipped. -/
def build_steps_from_path (G : Graph) (path : List NodeId) : List RouteStep × ℚ :=
  if path.length < 2 then ([], 0)
  else
    let speed0 := DEFAULT_SPEED_KMH * 1000 / 3600
    let speed_mps := if speed0 ≤ 0 then 1 else speed0
    (path.zip path.tail).foldl
      (fun acc p =>
        match firstEdgeData G p.1 p.2 with
        | Option.none => acc
        | some data =>
          match data.weight with
          | Option.none => acc
          | some w => (acc.1 ++ [⟨p.1, p.2, w, w / speed_mps⟩], acc.2 + w))
      ([], 0)

/-- `RoutingService.compute_route` — the full pipeline.  State is threaded
explicitly (`ensure_graph_for_points` is the only state change); every
uncaught exception becomes an `Except.error`. -/
def compute_route (build : GMState → Coordinate → Coordinate → GMState)
    (s : GMState) (req : RouteRequest) : Except RouteErr (RouteResponse × GMState) :=
  let s1 := ensure_graph_for_points build s req.origin req.destination
  match s1.graph with
  | Option.none => Except.error RouteErr.graphNotInitialised
  | some G =>
    match find_nearest_node G req.origin with
    | Except.error e => Except.error e
    | Except.ok origin_node =>
      match find_nearest_node G req.destination with
      | Except.error e => Except.error e
      | Except.ok destination_node =>
        match nxShortestPath G origin_node destination_node with
        | Except.error PathErr.nodeNotFound => Except.error RouteErr.unknownNode
        | Except.error PathErr.noPath => Except.error RouteErr.noPathFound
        | Except.ok path =>
          let coords := build_coordinates_from_path G path
          let sd := build_steps_from_path G path
          let duration_s := compute_duration_from_distance sd.2
          let warnings :=
            if 2 * MAX_GRAPH_RADIUS_M < sd.2 then [Warning.routeExceedsTwiceMaxRadius] else []
          Except.ok
            ( { distance_m := sd.2
                duration_s := duration_s
                geometry := { type := "LineString", coordinates := coords }
                summary := { distance_m := sd.2, duration_s := duration_s, geometry := coords }
                steps := sd.1
                warnings := warnings }
            , s1 )

/-- `True` exactly on `Except.ok` — "the call returned a result to the
caller" as opposed to an exception propagating. -/
def exceptIsOk {ε α : Type} : Except ε α → Bool
  | Except.ok _ => true
  | Except.error _ => false

/-- The quantity `h` of `GraphManager._haversine_distance_m`:
`sin(dlat/2)**2 + cos(lat1)*cos(lat2)*sin(dlon/2)**2`, with `math.radians`
inlined as multiplication by `π/180`. -/
noncomputable def haversineH (a b : Coordinate) : ℝ :=
  let lat1 : ℝ := (a.lat : ℝ) * Real.pi / 180
  let lon1 : ℝ := (a.lon : ℝ) * Real.pi / 180
  let lat2 : ℝ := (b.lat : ℝ) * Real.pi / 180
  let lon2 : ℝ := (b.lon : ℝ) * Real.pi / 180
  Real.sin ((lat2 - lat1) / 2) ^ 2 +
    Real.cos lat1 * Real.cos lat2 * Real.sin ((lon2 - lon1) / 2) ^ 2

/-- `math.atan2(y, x)` over the reals (the C library quadrant convention). -/
noncomputable def atan2 (y x : ℝ) : ℝ :=
  if 0 < x then Real.arctan (y / x)
  else if x < 0 then
    (if 0 ≤ y then Real.arctan (y / x) + Real.pi else Real.arctan (y / x) - Real.pi)
  else
    (if 0 < y then Real.pi / 2 else if y < 0 then -(Real.pi / 2) else 0)

/-- `GraphManager._haversine_distance_m`:
`R * 2 * atan2(sqrt(h), sqrt(1 - h))` with `R = 6_371_000`. -/
noncomputable def haversine_distance_m (a b : Coordinate) : ℝ :=
  6371000 * 2 * atan2 (Real.sqrt (haversineH a b)) (Real.sqrt (1 - haversineH a b))

/-- The radius line of `GraphManager._build_graph_for_points`:
`radius_m = min(1.5 * distance_m + 2_000.0, self.MAX_GRAPH_RADIUS_M)`,
as a function of the origin/destination distance `distance_m`. -/
noncomputable def radius_from_distance (distance_m : ℝ) : ℝ :=
  min (1.5 * distance_m + 2000) ((MAX_GRAPH_RADIUS_M : ℚ) : ℝ)

/-- The radius `_build_graph_for_points` uses for a given origin/destination
pair: the radius policy applied to their haversine distance. -/
noncomputable def build_radius_m (origin destination : Coordinate) : ℝ :=
  radius_from_distance (haversine_distance_m origin destination)

/-- The routing request of `tests/test_route_dummy.py` (origin and
destination resolve to dummy nodes 1 and 3). -/
def testRequest : RouteRequest :=
  { origin := ⟨45.4642, 9.19⟩, destination := ⟨45.48, 9.25⟩ }

/-- The reverse of `testRequest`: its origin resolves to dummy node 3, from
which no node is reachable (all dummy edges point away from 3). -/
def revRequest : RouteRequest :=
  { origin := ⟨45.48, 9.25⟩, destination := ⟨45.4642, 9.19⟩ }

/-- A fresh `GraphManager` state: no graph, no bbox. -/
def initState : GMState := ⟨Option.none, Option.none⟩

/-- The `RouteResponse` the dummy-graph test route produces: path
`[1, 2, 3]`, 2500 m, 225 s, two steps, straight-segment geometry through the
three node coordinates, no warnings. -/
def testRouteResult : RouteResponse :=
  { distance_m := 2500
    duration_s := 225
    geometry :=
      { type := "LineString"
        coordinates :=
          [ (some (45.4642 : ℚ), some (9.19 : ℚ))
          , (some (45.4720 : ℚ), some (9.22 : ℚ))
          , (some (45.4800 : ℚ), some (9.25 : ℚ)) ] }
    summary :=
      { distance_m := 2500
        duration_s := 225
        geometry :=
          [ (some (45.4642 : ℚ), some (9.19 : ℚ))
          , (some (45.4720 : ℚ), some (9.22 : ℚ))
          , (some (45.4800 : ℚ), some (9.25 : ℚ)) ] }
    steps :=
      [ ⟨1, 2, 1000, 90⟩
      , ⟨2, 3, 1500, 135⟩ ]
    warnings := [] }

/-- A raw graph (as if fetched from the map-data source) with one edge whose
`length` is absent and whose head node has no coordinates, so weight
normalisation is impossible for it. -/
def unweightableRawGraph : Graph :=
  { nodes :=
      [ (1, ⟨some (9.19 : ℚ), some (45.4642 : ℚ)⟩)
      , (2, ⟨Option.none, Option.none⟩) ]
    edges := [ (1, 2, ⟨RawAttr.missing, Option.none, Option.none⟩) ] }

/-- An arbitrary great-circle fallback for exercising
`ensure_numeric_weights` on edges whose endpoints lack coordinates (the
fallback is never consulted for such edges). -/
def fbZero : ℚ → ℚ → ℚ → ℚ → ℚ := fun _ _ _ _ => 0

/-- `unweightableRawGraph` after weight normalisation: the edge stays
without a numeric weight. -/
def unweightableGraph : Graph := ensure_numeric_weights fbZero unweightableRawGraph

deriving instance DecidableEq for Except

/-- C1 (counterexample): on the dummy graph, routing from the test
destination back to the test origin resolves to nodes 3 and 1, and node 1
is unreachable from node 3.  `compute_route` does not return any result to
the caller — the `NetworkXNoPath` exception raised inside the networkx
shortest-path call propagates out of `compute_route` uncaught (there is no
`try/except` anywhere in `RoutingService` or the route endpoint), so the
condition is not surfaced as a "no route" result. -/
theorem c1_no_path_is_uncaught_exception :
    exceptIsOk (compute_route dummyBuild initState revRequest) = false ∧
    compute_route dummyBuild initState revRequest = Except.error RouteErr.noPathFound := by
  constructor
  · with_unfolding_all rfl
  · with_unfolding_all rfl

/-- C1 (amended): whenever the nearest-node resolution succeeds and the
shortest-path search fails with `NetworkXNoPath` (unreachable target),
`compute_route` fails by propagating that exception to its caller — it
never returns an empty-but-successful result. -/
theorem c1_no_path_propagates (build : GMState → Coordinate → Coordinate → GMState)
    (s : GMState) (req : RouteRequest) (G : Graph) (a b : NodeId)
    (hG : (ensure_graph_for_points build s req.origin req.destination).graph = some G)
    (ho : find_nearest_node G req.origin = Except.ok a)
    (hd : find_nearest_node G req.destination = Except.ok b)
    (hsp : nxShortestPath G a b = Except.error PathErr.noPath) :
    compute_route build s req = Except.error RouteErr.noPathFound := by
  unfold compute_route
  simp only [hG, ho, hd, hsp]

/-- C1 (witness): the amended theorem applied to the concrete
reverse-direction request on the dummy graph. -/
theorem c1_no_path_propagates_witness :
    compute_route dummyBuild initState revRequest = Except.error RouteErr.noPathFound :=
  c1_no_path_propagates dummyBuild initState revRequest build_dummy_graph_for_tests 3 1
    (by with_unfolding_all rfl) (by with_unfolding_all rfl)
    (by with_unfolding_all rfl) (by with_unfolding_all rfl)

/-- C2: on the fixed three-node dummy graph, the shortest path from node 1
to node 3 is `[1, 2, 3]`, and the route computed for the dummy test request
(whose endpoints resolve to nodes 1 and 3) has `distance_m = 2500`, exactly
2 steps, and `duration_s = 2500 / (40000/3600) = 225` seconds. -/
theorem c2_dummy_route_exact :
    nxShortestPath build_dummy_graph_for_tests 1 3 = Except.ok [1, 2, 3] ∧
    compute_route dummyBuild initState testRequest = Except.ok (testRouteResult, dummyState) ∧
    testRouteResult.distance_m = 2500 ∧
    testRouteResult.steps.length = 2 ∧
    testRouteResult.duration_s = 2500 / (40000 / 3600) ∧
    testRouteResult.duration_s = 225 := by
  refine ⟨by with_unfolding_all rfl, by with_unfolding_all rfl, rfl, rfl, by norm_num [testRouteResult], rfl⟩

/-- C3 (counterexample): after weight normalisation the only edge of
`unweightableRawGraph` (no `length`, head endpoint without coordinates) has
no numeric weight, yet the shortest path from 1 to 2 traverses exactly that
edge: networkx's weight function treats the missing `weight` attribute as
`1`, so unweighted edges are *not* excluded from shortest-path traversal. -/
theorem c3_unweighted_edge_is_traversed :
    (edgeDataList unweightableGraph 1 2).map EdgeData.weight = [Option.none] ∧
    nxShortestPath unweightableGraph 1 2 = Except.ok [1, 2] := by
  exact ⟨by with_unfolding_all rfl, by with_unfolding_all rfl⟩

/-- C3 (amended): an edge whose `length` is missing or unparseable and
whose endpoint coordinates do not permit the great-circle fallback is left
without a numeric `weight` (first conjunct, an exact characterisation of
`_ensure_numeric_weights`); such an edge contributes no step and no
distance to the route (last conjunct), but the shortest-path search gives
it an implicit cost of `1` and may traverse it (middle conjuncts). -/
theorem c3_unweighted_edge_behaviour :
    (∀ (fb : ℚ → ℚ → ℚ → ℚ → ℚ) (nds : List (NodeId × NodeData)) (u v : NodeId) (e : EdgeData),
      (ensure_edge_weight fb nds u v e).weight = Option.none ↔
        (e.weight = Option.none ∧
          (e.rawLength = RawAttr.other ∨
            ((e.rawLength = RawAttr.missing ∨ e.rawLength = RawAttr.strBad) ∧
              edgeEndpointCoords nds u v = Option.none)))) ∧
    (edgeDataList unweightableGraph 1 2).map EdgeData.weight = [Option.none] ∧
    edgeCost unweightableGraph 1 2 = some 1 ∧
    nxShortestPath unweightableGraph 1 2 = Except.ok [1, 2] ∧
    build_steps_from_path unweightableGraph [1, 2] = ([], 0) := by
  refine ⟨?_, by with_unfolding_all rfl, by with_unfolding_all rfl,
    by with_unfolding_all rfl, by with_unfolding_all rfl⟩
  intro fb nds u v e
  cases hr : e.rawLength <;>
    cases hc : edgeEndpointCoords nds u v <;>
      simp [ensure_edge_weight, hr, hc]

/-- C4: the radius used when building a new graph is
`min(1.5 * distance(origin, destination) + 2000, 15000)` metres;
at distance 10000 the policy yields the cap 15000, at distance 1000 it
yields 3500 (uncapped). -/
theorem c4_radius_policy :
    (∀ origin destination : Coordinate,
      build_radius_m origin destination =
        min (1.5 * haversine_distance_m origin destination + 2000) 15000) ∧
    radius_from_distance 10000 = 15000 ∧
    radius_from_distance 1000 = 3500 := by
  refine ⟨fun o d => ?_, ?_, ?_⟩
  · unfold build_radius_m radius_from_distance MAX_GRAPH_RADIUS_M
    norm_num
  · unfold radius_from_distance MAX_GRAPH_RADIUS_M
    norm_num [min_def]
  · unfold radius_from_distance MAX_GRAPH_RADIUS_M
    norm_num [min_def]

/-- C5: a point is contained in the cached box iff
`south ≤ lat ≤ north ∧ west ≤ lon ≤ east`; containment of both endpoints is
checked against the cached box (and fails when no box is cached);
`ensure_graph_for_points` rebuilds (calls the build) exactly when no graph
is cached or containment fails, and leaves the state unchanged when a graph
is cached and both points are contained. -/
theorem c5_ensure_coverage :
    (∀ (b : BBox) (c : Coordinate),
      bbox_contains_point b c = true ↔
        (b.south ≤ c.lat ∧ c.lat ≤ b.north ∧ b.west ≤ c.lon ∧ c.lon ≤ b.east)) ∧
    (∀ s origin destination, s.bbox = Option.none →
      bbox_contains_points s origin destination = false) ∧
    (∀ s origin destination b, s.bbox = some b →
      bbox_contains_points s origin destination =
        (bbox_contains_point b origin && bbox_contains_point b destination)) ∧
    (∀ build s origin destination,
      (s.graph = Option.none ∨ bbox_contains_points s origin destination = false) →
      ensure_graph_for_points build s origin destination = build s origin destination) ∧
    (∀ build s origin destination,
      (∃ G, s.graph = some G) → bbox_contains_points s origin destination = true →
      ensure_graph_for_points build s origin destination = s) := by
  refine ⟨?_, ?_, ?_, ?_, ?_⟩
  · intro b c
    simp [bbox_contains_point, and_assoc]
  · intro s o d h
    simp [bbox_contains_points, h]
  · intro s o d b h
    simp [bbox_contains_points, h]
  · intro build s o d h
    rcases h with h | h
    · simp [ensure_graph_for_points, h]
    · simp [ensure_graph_for_points, h]
  · intro build s o d h hc
    obtain ⟨G, hG⟩ := h
    simp [ensure_graph_for_points, hG, hc]

/-- C5 (witness): with the dummy graph and its all-covering box cached,
both test endpoints are contained and `ensure_graph_for_points` leaves the
cached state untouched. -/
theorem c5_ensure_coverage_witness :
    bbox_contains_points dummyState testRequest.origin testRequest.destination = true ∧
    ensure_graph_for_points dummyBuild dummyState testRequest.origin testRequest.destination
      = dummyState :=
  ⟨by with_unfolding_all rfl,
   c5_ensure_coverage.2.2.2.2 dummyBuild dummyState testRequest.origin testRequest.destination
     ⟨build_dummy_graph_for_tests, rfl⟩ (by with_unfolding_all rfl)⟩

/-- C10: the distance→duration conversion is non-negative everywhere,
equals `distance / (40 km/h in m/s)` for positive distances, equals 0 for
non-positive distances, the constant speed is the non-zero `100/9 m/s` (so
the conversion never divides by zero), and every successful
`compute_route` result carries `duration_s = conversion(distance_m)`. -/
theorem c10_duration_from_distance :
    (∀ d : ℚ, 0 ≤ compute_duration_from_distance d) ∧
    (∀ d : ℚ, 0 < d →
      compute_duration_from_distance d = d / (DEFAULT_SPEED_KMH * 1000 / 3600)) ∧
    (∀ d : ℚ, d ≤ 0 → compute_duration_from_distance d = 0) ∧
    (DEFAULT_SPEED_KMH * 1000 / 3600 : ℚ) = 100 / 9 ∧
    ((100 : ℚ) / 9 ≠ 0) ∧
    (∀ build s req resp s', compute_route build s req = Except.ok (resp, s') →
      resp.duration_s = compute_duration_from_distance resp.distance_m) := by
  refine ⟨?_, ?_, ?_, by norm_num [DEFAULT_SPEED_KMH], by norm_num, ?_⟩
  · intro d
    simp only [compute_duration_from_distance]
    split_ifs with h1 h2
    · exact le_rfl
    · exact le_rfl
    · exact le_of_lt (div_pos (lt_of_not_le h1) (lt_of_not_le h2))
  · intro d hd
    simp only [compute_duration_from_distance]
    split_ifs with h1 h2
    · linarith
    · exfalso
      norm_num [DEFAULT_SPEED_KMH] at h2
    · rfl
  · intro d hd
    simp only [compute_duration_from_distance, if_pos hd]
  · intro build s req resp s' h
    simp only [compute_route] at h
    split at h
    · cases h
    · split at h
      · cases h
      · split at h
        · cases h
        · split at h
          · cases h
          · cases h
          · simp only [Except.ok.injEq, Prod.mk.injEq] at h
            obtain ⟨h1, h2⟩ := h
            subst h1
            rfl

/-- C10 (witness): the conversion applied at the concrete distance 2500 and
at the concrete dummy-graph route. -/
theorem c10_duration_from_distance_witness :
    (0 : ℚ) < 2500 ∧
    compute_duration_from_distance 2500 = 2500 / (DEFAULT_SPEED_KMH * 1000 / 3600) ∧
    ((-5 : ℚ) ≤ 0 ∧ compute_duration_from_distance (-5) = 0) ∧
    testRouteResult.duration_s = compute_duration_from_distance testRouteResult.distance_m :=
  ⟨by norm_num,
   c10_duration_from_distance.2.1 2500 (by norm_num),
   ⟨by norm_num, c10_duration_from_distance.2.2.1 (-5) (by norm_num)⟩,
   c10_duration_from_distance.2.2.2.2.2 dummyBuild initState testRequest testRouteResult
     dummyState (by with_unfolding_all rfl)⟩

lemma sinHalfSq (x : ℝ) : Real.sin (x / 2) ^ 2 = (1 - Real.cos x) / 2 := by
  rw [Real.sin_sq_eq_half_sub (x / 2), show 2 * (x / 2) = x by ring]
  ring

lemma havCoreBounds (l1 l2 d : ℝ) :
    0 ≤ Real.sin ((l2 - l1) / 2) ^ 2 + Real.cos l1 * Real.cos l2 * Real.sin (d / 2) ^ 2 ∧
      Real.sin ((l2 - l1) / 2) ^ 2 + Real.cos l1 * Real.cos l2 * Real.sin (d / 2) ^ 2 ≤ 1 := by
  have hs1 := Real.sin_sq_add_cos_sq l1
  have hs2 := Real.sin_sq_add_cos_sq l2
  have hd1 := Real.neg_one_le_cos d
  have hd2 := Real.cos_le_one d
  rw [sinHalfSq, sinHalfSq, Real.cos_sub]
  constructor
  · nlinarith [sq_nonneg (Real.sin l1 - Real.sin l2),
      sq_nonneg (Real.cos l1 - Real.cos l2 * Real.cos d),
      mul_nonneg (mul_nonneg (sub_nonneg.2 hd2) (by linarith : (0:ℝ) ≤ 1 + Real.cos d))
        (sq_nonneg (Real.cos l2))]
  · nlinarith [sq_nonneg (Real.sin l1 + Real.sin l2),
      sq_nonneg (Real.cos l1 + Real.cos l2 * Real.cos d),
      mul_nonneg (mul_nonneg (sub_nonneg.2 hd2) (by linarith : (0:ℝ) ≤ 1 + Real.cos d))
        (sq_nonneg (Real.cos l2))]

lemma haversineH_bounds (a b : Coordinate) : 0 ≤ haversineH a b ∧ haversineH a b ≤ 1 := by
  simp only [haversineH]
  exact havCoreBounds _ _ _

lemma haversineH_comm (a b : Coordinate) : haversineH a b = haversineH b a := by
  simp only [haversineH]
  rw [sinHalfSq, sinHalfSq, sinHalfSq, sinHalfSq, Real.cos_sub, Real.cos_sub,
    Real.cos_sub, Real.cos_sub]
  ring

lemma haversineH_self (a : Coordinate) : haversineH a a = 0 := by
  simp [haversineH]

lemma atan2_nonneg {y x : ℝ} (hy : 0 ≤ y) (hx : 0 ≤ x) : 0 ≤ atan2 y x := by
  unfold atan2
  rcases lt_or_eq_of_le hx with hxp | hxz
  · rw [if_pos hxp]
    have h := Real.arctan_strictMono.monotone (by positivity : (0:ℝ) ≤ y / x)
    simpa [Real.arctan_zero] using h
  · rw [if_neg (by rw [← hxz]; exact lt_irrefl 0), if_neg (by rw [← hxz]; exact lt_irrefl 0)]
    rcases lt_or_eq_of_le hy with hyp | hyz
    · rw [if_pos hyp]
      linarith [Real.pi_pos]
    · rw [if_neg (by rw [← hyz]; exact lt_irrefl 0), if_neg (by rw [← hyz]; exact lt_irrefl 0)]

lemma atan2_zero_one : atan2 0 1 = 0 := by
  norm_num [atan2, Real.arctan_zero]

/-- C7: the haversine distance is total (it is a function defined on every
coordinate pair, and its intermediate quantity `h` always lies in `[0, 1]`,
so neither square root sees a negative argument), non-negative, symmetric,
and zero on equal coordinates. -/
theorem c7_haversine_metric_properties (a b : Coordinate) :
    (0 ≤ haversineH a b ∧ haversineH a b ≤ 1) ∧
    0 ≤ haversine_distance_m a b ∧
    haversine_distance_m a b = haversine_distance_m b a ∧
    haversine_distance_m a a = 0 := by
  refine ⟨haversineH_bounds a b, ?_, ?_, ?_⟩
  · unfold haversine_distance_m
    have h := atan2_nonneg (Real.sqrt_nonneg (haversineH a b))
      (Real.sqrt_nonneg (1 - haversineH a b))
    nlinarith
  · unfold haversine_distance_m
    rw [haversineH_comm]
  · unfold haversine_distance_m
    rw [haversineH_self]
    norm_num [atan2_zero_one]

lemma findNearestLoop_mem (c : Coordinate) :
    ∀ (l : List (NodeId × NodeData)) (acc : Option (NodeId × ℚ)) (n : NodeId),
      findNearestLoop c l acc = some n →
      (∃ d, acc = some (n, d)) ∨ ∃ x y : ℚ, ((n, (⟨some x, some y⟩ : NodeData)) ∈ l) := by
  intro l
  induction l with
  | nil =>
    intro acc n h
    cases acc with
    | none => simp [findNearestLoop] at h
    | some p =>
      simp [findNearestLoop] at h
      exact Or.inl ⟨p.2, by rw [← h]⟩
  | cons hd tl ih =>
    rcases hd with ⟨nid, xo, yo⟩
    intro acc n h
    cases xo with
    | none =>
      rcases ih acc n (by simpa [findNearestLoop] using h) with h1 | ⟨x, y, hm⟩
      · exact Or.inl h1
      · exact Or.inr ⟨x, y, List.mem_cons_of_mem _ hm⟩
    | some x =>
      cases yo with
      | none =>
        rcases ih acc n (by simpa [findNearestLoop] using h) with h1 | ⟨x', y', hm⟩
        · exact Or.inl h1
        · exact Or.inr ⟨x', y', List.mem_cons_of_mem _ hm⟩
      | some y =>
        cases acc with
        | none =>
          rcases ih _ n (by simpa [findNearestLoop] using h) with ⟨d, hd2⟩ | ⟨x', y', hm⟩
          · simp only [Option.some.injEq, Prod.mk.injEq] at hd2
            obtain ⟨h1, _⟩ := hd2
            subst h1
            exact Or.inr ⟨x, y, List.mem_cons_self _ _⟩
          · exact Or.inr ⟨x', y', List.mem_cons_of_mem _ hm⟩
        | some p =>
          rcases p with ⟨bn, bd⟩
          by_cases hlt :
              (x - c.lon) * (x - c.lon) + (y - c.lat) * (y - c.lat) < bd
          · rcases ih _ n (by simpa [findNearestLoop, hlt] using h) with ⟨d, hd2⟩ | ⟨x', y', hm⟩
            · simp only [Option.some.injEq, Prod.mk.injEq] at hd2
              obtain ⟨h1, _⟩ := hd2
              subst h1
              exact Or.inr ⟨x, y, List.mem_cons_self _ _⟩
            · exact Or.inr ⟨x', y', List.mem_cons_of_mem _ hm⟩
          · rcases ih _ n (by simpa [findNearestLoop, hlt] using h) with ⟨d, hd2⟩ | ⟨x', y', hm⟩
            · simp only [Option.some.injEq, Prod.mk.injEq] at hd2
              obtain ⟨h1, h2⟩ := hd2
              subst h1
              exact Or.inl ⟨bd, rfl⟩
            · exact Or.inr ⟨x', y', List.mem_cons_of_mem _ hm⟩

lemma assocFind_eq_of_mem {α : Type} {l : List (NodeId × α)} {n : NodeId} {d : α}
    (hnd : (l.map Prod.fst).Nodup) (hm : (n, d) ∈ l) : assocFind n l = some d := by
  induction l with
  | nil => cases hm
  | cons hd tl ih =>
    rcases hd with ⟨k, v⟩
    rw [List.map_cons, List.nodup_cons] at hnd
    rcases List.mem_cons.1 hm with heq | htl
    · cases heq
      simp [assocFind]
    · have hk : ¬(k = n) := by
        intro hkn
        exact hnd.1 (List.mem_map.2 ⟨(n, d), htl, hkn.symm⟩)
      simp only [assocFind, if_neg hk]
      exact ih hnd.2 htl

lemma find_nearest_node_ok {G : Graph} {c : Coordinate} {n : NodeId}
    (h : find_nearest_node G c = Except.ok n) :
    nodeMem G n = true ∧
      ((G.nodes.map Prod.fst).Nodup →
        ∃ x y : ℚ, nodesGet G n = ⟨some x, some y⟩) := by
  unfold find_nearest_node at h
  cases hl : findNearestLoop c G.nodes Option.none with
  | none => rw [hl] at h; cases h
  | some m =>
    rw [hl] at h
    simp only [Except.ok.injEq] at h
    subst h
    rcases findNearestLoop_mem c G.nodes Option.none m hl with ⟨d, hd⟩ | ⟨x, y, hm⟩
    · cases hd
    · constructor
      · simp only [nodeMem, List.any_eq_true]
        exact ⟨(m, ⟨some x, some y⟩), hm, by simp⟩
      · intro hnd
        exact ⟨x, y, by simp [nodesGet, assocFind_eq_of_mem hnd hm]⟩

lemma nxShortestPath_self {G : Graph} {n : NodeId} (h : nodeMem G n = true) :
    nxShortestPath G n n = Except.ok [n] := by
  simp [nxShortestPath, h]

/-- C6: whenever origin and destination resolve to the same nearest node
`n` of the (coverage-ensured) graph, `compute_route` succeeds with a
geometry of exactly the one coordinate of `n`, `distance_m = 0`,
`duration_s = 0`, no steps, and no warnings.  (The `Nodup` hypothesis is
the networkx invariant that node ids are dictionary keys.) -/
theorem c6_same_node_trivial_route (build : GMState → Coordinate → Coordinate → GMState)
    (s : GMState) (req : RouteRequest) (G : Graph) (n : NodeId)
    (hnd : (G.nodes.map Prod.fst).Nodup)
    (hG : (ensure_graph_for_points build s req.origin req.destination).graph = some G)
    (ho : find_nearest_node G req.origin = Except.ok n)
    (hd : find_nearest_node G req.destination = Except.ok n) :
    compute_route build s req = Except.ok
      ( { distance_m := 0
          duration_s := 0
          geometry := ⟨"LineString", [((nodesGet G n).y, (nodesGet G n).x)]⟩
          summary := ⟨0, 0, [((nodesGet G n).y, (nodesGet G n).x)]⟩
          steps := []
          warnings := [] }
      , ensure_graph_for_points build s req.origin req.destination ) ∧
    (nodesGet G n).x.isSome ∧ (nodesGet G n).y.isSome := by
  obtain ⟨hmem, hopt⟩ := find_nearest_node_ok ho
  obtain ⟨x, y, hxy⟩ := hopt hnd
  refine ⟨?_, by simp [hxy], by simp [hxy]⟩
  simp only [compute_route, hG, ho, hd, nxShortestPath_self hmem]
  norm_num [build_steps_from_path, build_coordinates_from_path,
    compute_duration_from_distance, MAX_GRAPH_RADIUS_M]

/-- A request whose two (distinct) endpoints both resolve to dummy node 1. -/
def sameNodeRequest : RouteRequest :=
  { origin := ⟨45.4642, 9.19⟩, destination := ⟨45.4650, 9.1905⟩ }

/-- C6 (witness): the same-nearest-node theorem applied to the dummy graph
and `sameNodeRequest`, whose endpoints both snap to node 1. -/
theorem c6_same_node_trivial_route_witness :
    compute_route dummyBuild initState sameNodeRequest = Except.ok
      ( { distance_m := 0
          duration_s := 0
          geometry := ⟨"LineString",
            [((nodesGet build_dummy_graph_for_tests 1).y,
              (nodesGet build_dummy_graph_for_tests 1).x)]⟩
          summary := ⟨0, 0,
            [((nodesGet build_dummy_graph_for_tests 1).y,
              (nodesGet build_dummy_graph_for_tests 1).x)]⟩
          steps := []
          warnings := [] }
      , ensure_graph_for_points dummyBuild initState sameNodeRequest.origin
          sameNodeRequest.destination ) ∧
    (nodesGet build_dummy_graph_for_tests 1).x.isSome ∧
    (nodesGet build_dummy_graph_for_tests 1).y.isSome :=
  c6_same_node_trivial_route dummyBuild initState sameNodeRequest
    build_dummy_graph_for_tests 1 (by decide) (by with_unfolding_all rfl)
    (by with_unfolding_all rfl) (by with_unfolding_all rfl)

lemma ensure_graph_for_points_of_contained (build : GMState → Coordinate → Coordinate → GMState)
    {s : GMState} {o d : Coordinate}
    (hG : s.graph.isNone = false) (hc : bbox_contains_points s o d = true) :
    ensure_graph_for_points build s o d = s := by
  simp [ensure_graph_for_points, hG, hc]

lemma compute_route_state {build : GMState → Coordinate → Coordinate → GMState}
    {s : GMState} {req : RouteRequest} {resp : RouteResponse} {s' : GMState}
    (h : compute_route build s req = Except.ok (resp, s')) :
    s' = ensure_graph_for_points build s req.origin req.destination := by
  simp only [compute_route] at h
  split at h
  · cases h
  · split at h
    · cases h
    · split at h
      · cases h
      · split at h
        · cases h
        · cases h
        · simp only [Except.ok.injEq, Prod.mk.injEq] at h
          exact h.2.symm

/-- C8: `compute_route` is deterministic against an unchanged cached graph:
when a graph is cached and its box contains both endpoints, a call leaves
the cache untouched, and a second call with the identical request returns
the identical `RouteResult` (the embedding of the pipeline is a pure
function of the cache state and request, so parallel-edge selection and
Dijkstra tie-breaks are fixed by the graph's stored insertion order). -/
theorem c8_compute_route_deterministic (build : GMState → Coordinate → Coordinate → GMState)
    (s : GMState) (req : RouteRequest) (G : Graph) (resp : RouteResponse) (s₁ : GMState)
    (hG : s.graph = some G)
    (hbox : bbox_contains_points s req.origin req.destination = true)
    (hrun : compute_route build s req = Except.ok (resp, s₁)) :
    s₁ = s ∧ compute_route build s₁ req = Except.ok (resp, s₁) := by
  have hens : ensure_graph_for_points build s req.origin req.destination = s :=
    ensure_graph_for_points_of_contained build (by rw [hG]; rfl) hbox
  have hs : s₁ = s := by rw [compute_route_state hrun, hens]
  subst hs
  exact ⟨rfl, hrun⟩

/-- C8 (witness): the determinism theorem applied to the cached dummy graph
and the concrete test request — the second call reproduces the first
call's exact `RouteResult` and cache state. -/
theorem c8_compute_route_deterministic_witness :
    compute_route dummyBuild dummyState testRequest = Except.ok (testRouteResult, dummyState) :=
  (c8_compute_route_deterministic dummyBuild dummyState testRequest
    build_dummy_graph_for_tests testRouteResult dummyState rfl
    (by with_unfolding_all rfl) (by with_unfolding_all rfl)).2
